import Mathlib

/-!
Verification of the GetLate.dev dashboard's API access layer (`src/App.py`)
against its natural-language specification.

The model is a shallow embedding of the Python source:

* `Json` models decoded Python/JSON values; Python `None` is `Json.null`,
  so a classified failure carries `Json.null` in the data slot exactly as the
  source returns `None`.
* `make_api_request_body` is the body of `make_api_request` (lines 83-131):
  the credential check, the transport dispatch and the status-code
  classification, with the transport outcome supplied as an explicit
  `HttpOutcome` argument (the stand-in for the network).
* `make_api_request` adds the `@st.cache_data(ttl=300)` decorator semantics:
  a memoization table keyed on the function's arguments, holding whatever
  the body returned (success or error) together with the capture time;
  entries older than 300 seconds are treated as absent.  A boolean in the
  result records whether the network (the body with a non-empty credential)
  was actually reached.
* `load_profiles` / `load_accounts` / `validate_api_key` / the refresh block
  of `main` / the post submission block of `show_posts` are translated
  directly, threading `SessionState` and the cache explicitly.
-/

namespace App

/-- Decoded JSON values as Python objects.  `null` doubles as Python `None`. -/
inductive Json where
  | null : Json
  | bool (b : Bool) : Json
  | num (n : Int) : Json
  | str (s : String) : Json
  | arr (xs : List Json) : Json
  | obj (fields : List (String × Json)) : Json

/-- Structural boolean equality on `Json` (used to build decidable equality). -/
def Json.beq : Json → Json → Bool
  | .null, .null => true
  | .bool a, .bool b => a == b
  | .num a, .num b => a == b
  | .str a, .str b => a == b
  | .arr xs, .arr ys => goL xs ys
  | .obj fs, .obj gs => goF fs gs
  | _, _ => false
where
  goL : List Json → List Json → Bool
    | [], [] => true
    | x :: xs, y :: ys => Json.beq x y && goL xs ys
    | _, _ => false
  goF : List (String × Json) → List (String × Json) → Bool
    | [], [] => true
    | (k, v) :: xs, (l, w) :: ys => k == l && Json.beq v w && goF xs ys
    | _, _ => false

theorem Json.beq_iff : ∀ a b : Json, Json.beq a b = true ↔ a = b := by
  refine Json.beq.induct
    (fun xs ys => Json.beq.goL xs ys = true ↔ xs = ys)
    (fun a b => Json.beq a b = true ↔ a = b)
    (fun fs gs => Json.beq.goF fs gs = true ↔ fs = gs)
    ?_ ?_ ?_ ?_ ?_ ?_ ?_ ?_ ?_ ?_ ?_ ?_ ?_
  case _ => simp [Json.beq]
  case _ => intro a b; simp [Json.beq]
  case _ => intro a b; simp [Json.beq]
  case _ => intro a b; simp [Json.beq]
  case _ => intro xs ys ih; simpa [Json.beq] using ih
  case _ => intro fs gs ih; simpa [Json.beq] using ih
  case _ =>
    intro t x h1 h2 h3 h4 h5 h6
    cases t <;> cases x <;> simp_all [Json.beq]
  case _ => simp [Json.beq.goL]
  case _ =>
    intro x xs y ys ih1 ih2
    simp [Json.beq.goL, ih1, ih2]
  case _ =>
    intro t x h1 h2
    cases t <;> cases x
    · simp [Json.beq.goL]
    · simp [Json.beq.goL]
    · simp [Json.beq.goL]
    · rename_i y ys z zs
      exact (h2 y ys z zs rfl rfl).elim
  case _ => simp [Json.beq.goF]
  case _ =>
    intro k v xs l w ys ih1 ih2
    simp [Json.beq.goF, ih1, ih2, Prod.ext_iff, and_assoc]
  case _ =>
    intro t x h1 h2
    cases t <;> cases x
    · simp [Json.beq.goF]
    · simp [Json.beq.goF]
    · simp [Json.beq.goF]
    · rename_i kv xs lw ys
      exact (h2 kv.1 kv.2 xs lw.1 lw.2 ys rfl rfl).elim

instance : DecidableEq Json := fun a b => decidable_of_iff _ (Json.beq_iff a b)

/-- Python truthiness of a decoded JSON value (`if data:`). -/
def truthy : Json → Bool
  | .null => false
  | .bool b => b
  | .num n => n != 0
  | .str s => s != ""
  | .arr xs => !xs.isEmpty
  | .obj fs => !fs.isEmpty

mutual

/-- Python `repr` of a decoded JSON value (used for container elements). -/
def pyRepr : Json → String
  | .null => "None"
  | .bool true => "True"
  | .bool false => "False"
  | .num n => toString n
  | .str s => "'" ++ s ++ "'"
  | .arr xs => "[" ++ pyReprList xs ++ "]"
  | .obj fs => "\x7b" ++ pyReprFields fs ++ "\x7d"

def pyReprList : List Json → String
  | [] => ""
  | [x] => pyRepr x
  | x :: xs => pyRepr x ++ ", " ++ pyReprList xs

def pyReprFields : List (String × Json) → String
  | [] => ""
  | [kv] => "'" ++ kv.1 ++ "': " ++ pyRepr kv.2
  | kv :: kvs => "'" ++ kv.1 ++ "': " ++ pyRepr kv.2 ++ ", " ++ pyReprFields kvs

end

/-- Python `str` of a decoded JSON value (as interpolated by an f-string). -/
def pyStr : Json → String
  | .str s => s
  | j => pyRepr j

/-- Python `d.get(key, default)`: `none` models the `AttributeError` raised
when the receiver is not a dict. -/
def Json.pyGet : Json → String → Json → Option Json
  | .obj fs, key, dflt =>
      match fs.lookup key with
      | some v => v
      | none => dflt
  | _, _, _ => none

/-- The HTTP method strings the source passes to `make_api_request`. -/
inductive Method where
  | GET : Method
  | POST : Method
  | PUT : Method
  | DELETE : Method
deriving DecidableEq

/-- Multipart file payload: (form field name, raw bytes as a string). -/
abbrev FilePayload := List (String × String)

/-- The argument tuple of `make_api_request`.  `@st.cache_data` keys its
memoization table on exactly these arguments; the session credential is read
from ambient state and is not part of the key.  `use_cache` is accepted by the
source but never consulted in the body. -/
structure Request where
  endpoint : String
  method : Method := .GET
  data : Option Json := none
  params : Option Json := none
  files : Option FilePayload := none
  use_cache : Bool := true
deriving DecidableEq

/-- An HTTP response as the `requests` library delivers it. -/
structure HttpResponse where
  statusCode : Nat
  /-- Decoded body: `some j` when it parses as JSON, `none` when `.json()` raises. -/
  jsonBody : Option Json
  /-- Raw body text (`response.text`). -/
  text : String
  /-- Text of the decode exception, used when `jsonBody = none` on a 2xx. -/
  decodeErr : String := ""

/-- Transport-level outcome of one network attempt. -/
inductive HttpOutcome where
  | response (r : HttpResponse)
  | timeout
  | connectionError
  | exn (msg : String)

/-- The `(data, error)` pair `make_api_request` returns.  A classified failure
carries Python `None` in the data slot, i.e. `Json.null`. -/
abbrev ApiTuple := Json × Option String

/-- Status-code classification of a completed response (lines 111-124 of
`make_api_request`); on a non-2xx the detail is the body's `message` field
when the body is a JSON dict carrying one, else the raw body text. -/
def classify_response (r : HttpResponse) : ApiTuple :=
  if r.statusCode = 200 ∨ r.statusCode = 201 then
    match r.jsonBody with
    | some j => (j, none)
    | none => (.null, some ("Request failed: " ++ r.decodeErr))
  else if r.statusCode = 401 then
    (.null, some "Unauthorized: Please check your API key")
  else if r.statusCode = 429 then
    (.null, some "Rate limit exceeded. Please try again later")
  else if r.statusCode = 500 then
    (.null, some "Server error. Please try again later")
  else
    let detail :=
      match r.jsonBody with
      | some (.obj fs) =>
          match fs.lookup "message" with
          | some v => pyStr v
          | none => r.text
      | _ => r.text
    (.null, some ("Error " ++ toString r.statusCode ++ ": " ++ detail))

/-- Body of `make_api_request` (lines 84-131, the undecorated function):
credential check, transport dispatch, classification.  The boolean records
whether the network was reached. -/
def make_api_request_body (api_key : String) (req : Request) (o : HttpOutcome) :
    ApiTuple × Bool :=
  if api_key = "" then ((.null, some "API key not provided"), false)
  else
    match o with
    | .response r => (classify_response r, true)
    | .timeout => ((.null, some "Request timed out. Please try again"), true)
    | .connectionError =>
        ((.null, some "Connection error. Please check your internet connection"), true)
    | .exn msg => ((.null, some ("Request failed: " ++ msg)), true)

/-- The memoization table of `@st.cache_data`: argument key, stored return
value, unix time of capture.  Lookup takes the most recent entry for a key. -/
abbrev CacheState := List (Request × ApiTuple × Nat)

def lookupEntry (c : CacheState) (req : Request) : Option (ApiTuple × Nat) :=
  match c.find? (fun e => decide (e.1 = req)) with
  | some e => some e.2
  | none => none

/-- A cached value is served only while younger than the 300-second `ttl`;
older entries are transparently treated as absent. -/
def lookupFresh (c : CacheState) (now : Nat) (req : Request) : Option ApiTuple :=
  match lookupEntry c req with
  | some (v, t) => if now - t < 300 then some v else none
  | none => none

def insertEntry (c : CacheState) (req : Request) (v : ApiTuple) (now : Nat) :
    CacheState :=
  (req, v, now) :: c

/-- The function `make_api_request` as the app calls it: the body wrapped in
`@st.cache_data(ttl=300)`.  On a fresh hit the stored tuple is returned and
the body never runs; on a miss the body runs and its return value — success
or error alike — is stored under the argument key.  The final boolean records
whether the network was reached on this call. -/
def make_api_request (api_key : String) (c : CacheState) (now : Nat)
    (req : Request) (o : HttpOutcome) : ApiTuple × CacheState × Bool :=
  match lookupFresh c now req with
  | some v => (v, c, false)
  | none =>
      let vn := make_api_request_body api_key req o
      (vn.1, insertEntry c req vn.1 now, vn.2)

/-- The `st.session_state` record as the access layer uses it. -/
structure SessionState where
  api_key : String := ""
  profiles : Json := .arr []
  accounts : Json := .arr []
  last_refresh : Option Nat := none
deriving DecidableEq

/-- Result of one loader call: the `(success, error)` pair plus the session
state, cache and network flag it leaves behind. -/
structure LoadOutcome where
  success : Bool
  error : Option String
  state : SessionState
  cache : CacheState
  network : Bool
deriving DecidableEq

def profilesRequest : Request := { endpoint := "/profiles" }

def accountsRequest : Request := { endpoint := "/accounts" }

/-- The argument tuple of the `createPost` call (line 801). -/
def postsPostRequest (payload : Json) : Request :=
  { endpoint := "/posts", method := .POST, data := some payload }

/-- The argument tuple of the `createProfile` call (line 508). -/
def profilesPostRequest (payload : Json) : Request :=
  { endpoint := "/profiles", method := .POST, data := some payload }

/-- The argument tuple of the `uploadMedia` call (line 613). -/
def mediaPostRequest (fileBytes : String) : Request :=
  { endpoint := "/media", method := .POST, files := some [("files", fileBytes)] }

/-- The loader `load_profiles` (lines 133-140).  `none` models the `AttributeError`
raised when a truthy non-dict payload meets `data.get`. -/
def load_profiles (s : SessionState) (c : CacheState) (now : Nat)
    (o : HttpOutcome) : Option LoadOutcome :=
  let res := make_api_request s.api_key c now profilesRequest o
  if truthy res.1.1 then
    match res.1.1.pyGet "profiles" (.arr []) with
    | some v => some ⟨true, none, { s with profiles := v }, res.2.1, res.2.2⟩
    | none => none
  else some ⟨false, res.1.2, s, res.2.1, res.2.2⟩

/-- The loader `load_accounts` (lines 142-149), symmetric to `load_profiles`. -/
def load_accounts (s : SessionState) (c : CacheState) (now : Nat)
    (o : HttpOutcome) : Option LoadOutcome :=
  let res := make_api_request s.api_key c now accountsRequest o
  if truthy res.1.1 then
    match res.1.1.pyGet "accounts" (.arr []) with
    | some v => some ⟨true, none, { s with accounts := v }, res.2.1, res.2.2⟩
    | none => none
  else some ⟨false, res.1.2, s, res.2.1, res.2.2⟩

/-- The checker `validate_api_key` (lines 151-160).  The source's `data is not None` test
is `data ≠ Json.null`: a classified failure returns Python `None`, and a
decoded JSON `null` body is that same Python value. -/
def validate_api_key (s : SessionState) (c : CacheState) (now : Nat)
    (o : HttpOutcome) : (Bool × Option String) × CacheState :=
  if s.api_key = "" then ((false, some "No API key provided"), c)
  else
    let res := make_api_request s.api_key c now profilesRequest o
    if res.1.1 ≠ .null then ((true, some "API key is valid"), res.2.1)
    else ((false, res.1.2), res.2.1)

/-- Python `a or b` on optional strings (`None` and `""` are falsy). -/
def pyOrStr : Option String → Option String → Option String
  | some s, b => if s = "" then b else some s
  | none, b => b

/-- How an optional string renders inside a Python f-string. -/
def renderOpt : Option String → String
  | some s => s
  | none => "None"

/-- Result of the "Refresh Data" handler: the banner messages shown, the
state and cache left behind, and each loader's network flag. -/
structure RefreshOutcome where
  messages : List String
  state : SessionState
  cache : CacheState
  profilesNetwork : Bool
  accountsNetwork : Bool
deriving DecidableEq

/-- The "Refresh Data" button handler (lines 214-227): profiles then
accounts, success banner and `last_refresh` update only when both succeed,
otherwise a single failure message built from
`profiles_error or accounts_error`. -/
def refresh_data (s : SessionState) (c : CacheState) (now : Nat)
    (o1 o2 : HttpOutcome) : Option RefreshOutcome :=
  if s.api_key ≠ "" then
    match load_profiles s c now o1 with
    | none => none
    | some p =>
      match load_accounts p.state p.cache now o2 with
      | none => none
      | some a =>
        if p.success && a.success then
          some ⟨["Data refreshed successfully!"],
                { a.state with last_refresh := some now }, a.cache,
                p.network, a.network⟩
        else
          some ⟨["Refresh failed: " ++ renderOpt (pyOrStr p.error a.error)],
                a.state, a.cache, p.network, a.network⟩
  else some ⟨["Please enter your API key first"], s, c, false, false⟩

/-- The `platformSpecificData` dict for a Reddit target as the post form builds it. -/
structure SpecData where
  subreddit : String
  type : String
  url : Option String
deriving DecidableEq

/-- One entry of `selected_accounts` as the post form builds it. -/
structure PlatformTarget where
  platform : String
  accountId : String
  platformSpecificData : Option SpecData
deriving DecidableEq

/-- Python `s.strip()`: drop leading and trailing whitespace. -/
def pyStrip (s : String) : String :=
  ⟨((s.toList.dropWhile Char.isWhitespace).reverse.dropWhile
      Char.isWhitespace).reverse⟩

/-- Reddit-specific validation of one selected target (lines 770-776):
`reddit_data.get(...)` on a missing `platformSpecificData` yields `None`. -/
def reddit_target_errors (acc : PlatformTarget) : List String :=
  if acc.platform = "reddit" then
    let sub := match acc.platformSpecificData with
               | some d => d.subreddit
               | none => ""
    let ty : Option String := match acc.platformSpecificData with
               | some d => some d.type
               | none => none
    let postUrl : Option String := match acc.platformSpecificData with
               | some d => d.url
               | none => none
    (if sub = "" then ["Subreddit is required for Reddit posts"] else []) ++
    (if ty = some "link" ∧ (postUrl = none ∨ postUrl = some "") then
      ["URL is required for Reddit link posts"] else [])
  else []

/-- Client-side validation of a post submission (lines 762-776), messages in
source order. -/
def validate_post_form (content : String) (selected : List PlatformTarget) :
    List String :=
  (if pyStrip content = "" then ["Post content is required"] else []) ++
  (if selected = [] then ["At least one platform must be selected"] else []) ++
  (selected.map reddit_target_errors).flatten

def specDataJson (d : SpecData) : Json :=
  .obj ([("subreddit", .str d.subreddit), ("type", .str d.type)] ++
    (match d.url with
     | some u => if u = "" then [] else [("url", .str u)]
     | none => []))

def platformTargetJson (t : PlatformTarget) : Json :=
  .obj ([("platform", .str t.platform), ("accountId", .str t.accountId)] ++
    (match t.platformSpecificData with
     | some d => [("platformSpecificData", specDataJson d)]
     | none => []))

/-- The `data` dict submitted by the post form (lines 783-797). -/
def post_payload (content : String) (selected : List PlatformTarget)
    (scheduledFor : Option String) (timezone : String)
    (media_url : Option String) : Json :=
  .obj ([("content", .str (pyStrip content)),
         ("platforms", .arr (selected.map platformTargetJson))] ++
    (match scheduledFor with
     | some dt => [("scheduledFor", .str dt), ("timezone", .str timezone)]
     | none => []) ++
    (match media_url with
     | some u => [("mediaItems", .arr [.obj [("type", .str "image"),
                                             ("url", .str u)]])]
     | none => []))

/-- The submit branch of `show_posts` (lines 761-807): validate, show the
itemized messages when any check fails, otherwise POST the payload through
`make_api_request`. -/
def handle_post_submission (s : SessionState) (c : CacheState) (now : Nat)
    (content : String) (selected : List PlatformTarget)
    (scheduledFor : Option String) (timezone : String)
    (media_url : Option String) (o : HttpOutcome) :
    (List String ⊕ ApiTuple) × CacheState × Bool :=
  let errors := validate_post_form content selected
  if errors ≠ [] then (Sum.inl errors, c, false)
  else
    let res := make_api_request s.api_key c now
      (postsPostRequest
        (post_payload content selected scheduledFor timezone media_url)) o
    (Sum.inr res.1, res.2.1, res.2.2)

/-- The `createPost` network call (line 801). -/
def create_post (s : SessionState) (c : CacheState) (now : Nat)
    (payload : Json) (o : HttpOutcome) : ApiTuple × CacheState × Bool :=
  make_api_request s.api_key c now (postsPostRequest payload) o

/-- The `createProfile` network call (line 508). -/
def create_profile (s : SessionState) (c : CacheState) (now : Nat)
    (payload : Json) (o : HttpOutcome) : ApiTuple × CacheState × Bool :=
  make_api_request s.api_key c now (profilesPostRequest payload) o

/-- The `uploadMedia` network call (line 613): POST with the files payload. -/
def upload_media (s : SessionState) (c : CacheState) (now : Nat)
    (fileBytes : String) (o : HttpOutcome) : ApiTuple × CacheState × Bool :=
  make_api_request s.api_key c now (mediaPostRequest fileBytes) o

/-- Predicate: `sub` occurs as a contiguous substring of `m`. -/
def mentions (m sub : String) : Prop := sub.toList <:+: m.toList

instance (m sub : String) : Decidable (mentions m sub) := by
  unfold mentions; infer_instance

/-! ## Supporting lemmas about the cache table -/

theorem lookupEntry_insert_self (c : CacheState) (req : Request) (v : ApiTuple)
    (now : Nat) : lookupEntry (insertEntry c req v now) req = some (v, now) := by
  simp [lookupEntry, insertEntry, List.find?]

theorem lookupFresh_insert_self (c : CacheState) (req : Request) (v : ApiTuple)
    (now t1 : Nat) :
    lookupFresh (insertEntry c req v now) t1 req
      = if t1 - now < 300 then some v else none := by
  simp [lookupFresh, lookupEntry_insert_self]

theorem make_api_request_miss (key : String) (c : CacheState) (now : Nat)
    (req : Request) (o : HttpOutcome) (hmiss : lookupFresh c now req = none) :
    make_api_request key c now req o
      = ((make_api_request_body key req o).1,
         insertEntry c req (make_api_request_body key req o).1 now,
         (make_api_request_body key req o).2) := by
  simp [make_api_request, hmiss]

theorem make_api_request_body_network (key : String) (req : Request)
    (o : HttpOutcome) (hk : key ≠ "") :
    (make_api_request_body key req o).2 = true := by
  cases o <;> simp [make_api_request_body, hk]

theorem load_profiles_preserves_key (s : SessionState) (c : CacheState)
    (now : Nat) (o : HttpOutcome) (p : LoadOutcome)
    (hp : load_profiles s c now o = some p) :
    p.state.api_key = s.api_key
    ∧ p.cache = (make_api_request s.api_key c now profilesRequest o).2.1 := by
  simp only [load_profiles] at hp
  split at hp
  · split at hp
    · cases hp; exact ⟨rfl, rfl⟩
    · cases hp
  · cases hp; exact ⟨rfl, rfl⟩

/-! ## C1 -/

/-- Claim C1 counterexample.  The claim says a failed HTTP call leaves nothing in
the cache and that an identical call within the freshness window re-invokes
the client.  Concretely: a timed-out `GET /profiles` at t=0 stores the
failure tuple under the request key, and the identical call at t=10 is served
from the cache (`network = false`) with the stored failure. -/
theorem c1_counterexample :
    lookupEntry (make_api_request "k" [] 0 profilesRequest .timeout).2.1
        profilesRequest
      = some ((Json.null, some "Request timed out. Please try again"), 0)
    ∧ (make_api_request "k" (make_api_request "k" [] 0 profilesRequest .timeout).2.1
          10 profilesRequest .timeout).2.2 = false
    ∧ (make_api_request "k" (make_api_request "k" [] 0 profilesRequest .timeout).2.1
          10 profilesRequest .timeout).1
      = (Json.null, some "Request timed out. Please try again") := by
  decide

/-- Claim C1 (amended): when the underlying HTTP call of a cache-routed request
fails, the error is propagated to the caller, but the failure tuple IS stored
under the request's signature, and a later identical call within the
300-second freshness window returns the stored failure without invoking the
HTTP client again. -/
theorem c1_amended_failures_are_cached (key : String) (c : CacheState)
    (now t1 : Nat) (req : Request) (o o2 : HttpOutcome) (e : String)
    (hmiss : lookupFresh c now req = none)
    (hfail : (make_api_request_body key req o).1 = (Json.null, some e))
    (hfresh : t1 - now < 300) :
    (make_api_request key c now req o).1 = (Json.null, some e)
    ∧ lookupEntry (make_api_request key c now req o).2.1 req
        = some ((Json.null, some e), now)
    ∧ make_api_request key (make_api_request key c now req o).2.1 t1 req o2
        = ((Json.null, some e), (make_api_request key c now req o).2.1, false) := by
  rw [make_api_request_miss key c now req o hmiss, hfail]
  refine ⟨rfl, lookupEntry_insert_self c req _ now, ?_⟩
  simp [make_api_request, lookupFresh_insert_self, hfresh]

theorem c1_amended_failures_are_cached_witness :
    (make_api_request "k" [] 0 profilesRequest .connectionError).1
      = (Json.null,
         some "Connection error. Please check your internet connection")
    ∧ lookupEntry (make_api_request "k" [] 0 profilesRequest .connectionError).2.1
        profilesRequest
      = some ((Json.null,
               some "Connection error. Please check your internet connection"), 0)
    ∧ make_api_request "k"
        (make_api_request "k" [] 0 profilesRequest .connectionError).2.1
        299 profilesRequest .connectionError
      = ((Json.null,
          some "Connection error. Please check your internet connection"),
         (make_api_request "k" [] 0 profilesRequest .connectionError).2.1,
         false) :=
  c1_amended_failures_are_cached "k" [] 0 299 profilesRequest
    .connectionError .connectionError
    "Connection error. Please check your internet connection"
    (by decide) (by decide) (by decide)

/-! ## C2 -/

/-- Claim C2 counterexample.  The claim says `createPost` (and `createProfile`,
`uploadMedia`) bypass the cache entirely, so each invocation performs its own
network call.  Concretely: a successful `POST /posts` at t=0 is stored under
its argument key, and an identical `createPost` at t=10 performs no network
call and returns the stored result. -/
theorem c2_counterexample :
    (create_post { api_key := "k" } [] 0
        (Json.obj [("content", Json.str "hello")])
        (.response { statusCode := 201,
                     jsonBody := some (.obj [("success", .bool true)]),
                     text := "" })).2.2 = true
    ∧ lookupEntry
        (create_post { api_key := "k" } [] 0
          (Json.obj [("content", Json.str "hello")])
          (.response { statusCode := 201,
                       jsonBody := some (.obj [("success", .bool true)]),
                       text := "" })).2.1
        (postsPostRequest (Json.obj [("content", Json.str "hello")]))
      = some ((Json.obj [("success", Json.bool true)], none), 0)
    ∧ (create_post { api_key := "k" }
        (create_post { api_key := "k" } [] 0
          (Json.obj [("content", Json.str "hello")])
          (.response { statusCode := 201,
                       jsonBody := some (.obj [("success", .bool true)]),
                       text := "" })).2.1
        10 (Json.obj [("content", Json.str "hello")]) .timeout).2.2 = false
    ∧ (create_post { api_key := "k" }
        (create_post { api_key := "k" } [] 0
          (Json.obj [("content", Json.str "hello")])
          (.response { statusCode := 201,
                       jsonBody := some (.obj [("success", .bool true)]),
                       text := "" })).2.1
        10 (Json.obj [("content", Json.str "hello")]) .timeout).1
      = (Json.obj [("success", Json.bool true)], none) := by
  decide

/-- Claim C2 (amended): `createPost`, `createProfile` and `uploadMedia` are routed
through the same `@st.cache_data` memoization as every other call: their
results are stored under the argument signature, and an identical invocation
within the freshness window is served from the cache without a network
call. -/
theorem c2_amended_mutations_are_cached (s : SessionState) (c : CacheState)
    (now t1 : Nat) (payload : Json) (fileBytes : String) (o o2 : HttpOutcome)
    (hfresh : t1 - now < 300) :
    (lookupFresh c now (postsPostRequest payload) = none →
      create_post s (create_post s c now payload o).2.1 t1 payload o2
        = ((create_post s c now payload o).1,
           (create_post s c now payload o).2.1, false))
    ∧ (lookupFresh c now (profilesPostRequest payload) = none →
      create_profile s (create_profile s c now payload o).2.1 t1 payload o2
        = ((create_profile s c now payload o).1,
           (create_profile s c now payload o).2.1, false))
    ∧ (lookupFresh c now (mediaPostRequest fileBytes) = none →
      upload_media s (upload_media s c now fileBytes o).2.1 t1 fileBytes o2
        = ((upload_media s c now fileBytes o).1,
           (upload_media s c now fileBytes o).2.1, false)) := by
  refine ⟨fun hmiss => ?_, fun hmiss => ?_, fun hmiss => ?_⟩
  · unfold create_post
    rw [make_api_request_miss _ _ _ _ _ hmiss]
    simp [make_api_request, lookupFresh_insert_self, hfresh]
  · unfold create_profile
    rw [make_api_request_miss _ _ _ _ _ hmiss]
    simp [make_api_request, lookupFresh_insert_self, hfresh]
  · unfold upload_media
    rw [make_api_request_miss _ _ _ _ _ hmiss]
    simp [make_api_request, lookupFresh_insert_self, hfresh]

theorem c2_amended_mutations_are_cached_witness :
    create_post { api_key := "k" }
        (create_post { api_key := "k" } [] 0 (Json.str "p") .timeout).2.1
        5 (Json.str "p") .timeout
      = ((create_post { api_key := "k" } [] 0 (Json.str "p") .timeout).1,
         (create_post { api_key := "k" } [] 0 (Json.str "p") .timeout).2.1,
         false) :=
  ((c2_amended_mutations_are_cached { api_key := "k" } [] 0 5 (Json.str "p")
      "b" .timeout .timeout (by decide)).1 (by decide))

/-! ## C3 -/

/-- Claim C3: starting from a cache with no fresh entry for the signature, a second
identical cache-routed call within the 300-second freshness window returns
the first call's result and does not invoke the HTTP client (so the client
runs at most once across the two calls); a call issued once the window has
expired invokes the HTTP client again. -/
theorem c3_freshness_window (key : String) (c : CacheState) (req : Request)
    (o1 o2 : HttpOutcome) (t0 t1 : Nat)
    (hmiss : lookupFresh c t0 req = none) :
    (t1 - t0 < 300 →
      (make_api_request key (make_api_request key c t0 req o1).2.1 t1 req o2).1
        = (make_api_request key c t0 req o1).1
      ∧ (make_api_request key (make_api_request key c t0 req o1).2.1
           t1 req o2).2.2 = false)
    ∧ (300 ≤ t1 - t0 → key ≠ "" →
      (make_api_request key (make_api_request key c t0 req o1).2.1
         t1 req o2).2.2 = true) := by
  rw [make_api_request_miss key c t0 req o1 hmiss]
  constructor
  · intro hf
    constructor <;>
      simp [make_api_request, lookupFresh_insert_self, hf]
  · intro hexp hk
    have : ¬ t1 - t0 < 300 := not_lt.mpr hexp
    simp [make_api_request, lookupFresh_insert_self, this,
          make_api_request_body_network key req o2 hk]

theorem c3_freshness_window_witness :
    ((make_api_request "k"
        (make_api_request "k" [] 0 accountsRequest .timeout).2.1
        299 accountsRequest .timeout).1
      = (make_api_request "k" [] 0 accountsRequest .timeout).1
    ∧ (make_api_request "k"
        (make_api_request "k" [] 0 accountsRequest .timeout).2.1
        299 accountsRequest .timeout).2.2 = false)
    ∧ (make_api_request "k"
        (make_api_request "k" [] 0 accountsRequest .timeout).2.1
        300 accountsRequest .timeout).2.2 = true := by
  refine ⟨(c3_freshness_window "k" [] accountsRequest .timeout .timeout 0 299
    (by decide)).1 (by decide), ?_⟩
  exact (c3_freshness_window "k" [] accountsRequest .timeout .timeout 0 300
    (by decide)).2 (by decide) (by decide)

/-! ## C4 -/

/-- Claim C4: for every endpoint and argument tuple, a 401 response classifies to
the Unauthorized failure, a 429 to the RateLimited failure, a 500 to the
ServerError failure and a transport timeout to the Timeout failure, and the
four classified result values are pairwise distinct (the kind is recoverable
from the value). -/
theorem c4_error_kinds_distinct (key : String) (req : Request)
    (hk : key ≠ "") :
    (∀ r : HttpResponse, r.statusCode = 401 →
      (make_api_request_body key req (.response r)).1
        = (Json.null, some "Unauthorized: Please check your API key"))
    ∧ (∀ r : HttpResponse, r.statusCode = 429 →
      (make_api_request_body key req (.response r)).1
        = (Json.null, some "Rate limit exceeded. Please try again later"))
    ∧ (∀ r : HttpResponse, r.statusCode = 500 →
      (make_api_request_body key req (.response r)).1
        = (Json.null, some "Server error. Please try again later"))
    ∧ (make_api_request_body key req .timeout).1
        = (Json.null, some "Request timed out. Please try again")
    ∧ ([(Json.null, some "Unauthorized: Please check your API key"),
        (Json.null, some "Rate limit exceeded. Please try again later"),
        (Json.null, some "Server error. Please try again later"),
        (Json.null, some "Request timed out. Please try again")]
          : List ApiTuple).Pairwise (· ≠ ·) := by
  refine ⟨fun r h => ?_, fun r h => ?_, fun r h => ?_, ?_, by decide⟩
  · simp [make_api_request_body, classify_response, hk, h]
  · simp [make_api_request_body, classify_response, hk, h]
  · simp [make_api_request_body, classify_response, hk, h]
  · simp [make_api_request_body, hk]

theorem c4_error_kinds_distinct_witness :
    (make_api_request_body "k" profilesRequest
        (.response { statusCode := 401, jsonBody := none, text := "" })).1
      = (Json.null, some "Unauthorized: Please check your API key")
    ∧ (make_api_request_body "k" profilesRequest
        (.response { statusCode := 429, jsonBody := none, text := "" })).1
      = (Json.null, some "Rate limit exceeded. Please try again later")
    ∧ (make_api_request_body "k" profilesRequest
        (.response { statusCode := 500, jsonBody := none, text := "" })).1
      = (Json.null, some "Server error. Please try again later")
    ∧ (make_api_request_body "k" profilesRequest .timeout).1
      = (Json.null, some "Request timed out. Please try again") := by
  obtain ⟨h1, h2, h3, h4, _⟩ :=
    c4_error_kinds_distinct "k" profilesRequest (by decide)
  exact ⟨h1 _ rfl, h2 _ rfl, h3 _ rfl, h4⟩

/-! ## C7 -/

/-- Claim C7: with an absent/empty credential, `make_api_request` fails immediately
with the auth-not-configured error and performs no network activity — both as
the raw body and through the cache layer. -/
theorem c7_no_credential_fails_fast (req : Request) (o : HttpOutcome) :
    make_api_request_body "" req o
      = ((Json.null, some "API key not provided"), false)
    ∧ (∀ c : CacheState, ∀ now : Nat, lookupFresh c now req = none →
        make_api_request "" c now req o
          = ((Json.null, some "API key not provided"),
             insertEntry c req (Json.null, some "API key not provided") now,
             false)) := by
  refine ⟨by simp [make_api_request_body], fun c now hmiss => ?_⟩
  rw [make_api_request_miss "" c now req o hmiss]
  simp [make_api_request_body]

theorem c7_no_credential_fails_fast_witness :
    make_api_request_body "" profilesRequest .timeout
      = ((Json.null, some "API key not provided"), false)
    ∧ make_api_request "" [] 0 profilesRequest .timeout
      = ((Json.null, some "API key not provided"),
         insertEntry [] profilesRequest (Json.null, some "API key not provided") 0,
         false) :=
  ⟨(c7_no_credential_fails_fast profilesRequest .timeout).1,
   (c7_no_credential_fails_fast profilesRequest .timeout).2 [] 0 (by decide)⟩

/-! ## C5 -/

/-- Claim C5 counterexample.  The claim says that when both loaders of a combined
refresh fail, both error messages are surfaced.  Concretely: profiles fails
with 401 and accounts fails with 429, both loaders run, yet the only surfaced
message carries the profiles error and never mentions the accounts error. -/
theorem c5_counterexample :
    ((refresh_data { api_key := "k" } [] 0
        (.response { statusCode := 401, jsonBody := none, text := "" })
        (.response { statusCode := 429, jsonBody := none, text := "" })).map
      (fun r => r.messages))
      = some ["Refresh failed: Unauthorized: Please check your API key"]
    ∧ ((load_accounts { api_key := "k" }
          (make_api_request "k" [] 0 profilesRequest
            (.response { statusCode := 401, jsonBody := none,
                         text := "" })).2.1
          0
          (.response { statusCode := 429, jsonBody := none, text := "" })).map
        (fun r => r.error))
      = some (some "Rate limit exceeded. Please try again later")
    ∧ ∀ m ∈ ["Refresh failed: Unauthorized: Please check your API key"],
        ¬ mentions m "Rate limit exceeded. Please try again later" := by
  decide

/-- Claim C5 (amended): in a combined refresh both loaders are always executed —
the accounts loader runs, hits the network on a cache miss, and its fields
feed the result even when the profiles loader failed — but when loaders fail
only one error message is surfaced: `profiles_error or accounts_error`
(the profiles error when it is non-null and non-empty, else the accounts
error). -/
theorem c5_amended_both_attempted_one_error (s : SessionState)
    (c : CacheState) (now : Nat) (o1 o2 : HttpOutcome) (p a : LoadOutcome)
    (hk : s.api_key ≠ "")
    (hp : load_profiles s c now o1 = some p)
    (ha : load_accounts p.state p.cache now o2 = some a) :
    (p.success = false ∨ a.success = false →
      refresh_data s c now o1 o2
        = some ⟨["Refresh failed: " ++ renderOpt (pyOrStr p.error a.error)],
            a.state, a.cache, p.network, a.network⟩)
    ∧ (p.success = true → a.success = true →
      refresh_data s c now o1 o2
        = some ⟨["Data refreshed successfully!"],
            { a.state with last_refresh := some now }, a.cache,
            p.network, a.network⟩)
    ∧ (lookupFresh p.cache now accountsRequest = none → a.network = true)
    ∧ (∀ e : String, p.error = some e → e ≠ "" → p.success = false →
      refresh_data s c now o1 o2
        = some ⟨["Refresh failed: " ++ e], a.state, a.cache,
            p.network, a.network⟩) := by
  have hone : p.success = false ∨ a.success = false →
      refresh_data s c now o1 o2
        = some ⟨["Refresh failed: " ++ renderOpt (pyOrStr p.error a.error)],
            a.state, a.cache, p.network, a.network⟩ := by
    intro hor
    have hand : (p.success && a.success) = false := by
      rcases hor with h | h <;> simp [h]
    simp [refresh_data, hk, hp, ha, hand]
  refine ⟨hone, ?_, ?_, ?_⟩
  · intro h1 h2
    simp [refresh_data, hk, hp, ha, h1, h2]
  · intro hmiss
    obtain ⟨hkey, -⟩ := load_profiles_preserves_key s c now o1 p hp
    simp only [load_accounts] at ha
    rw [make_api_request_miss _ _ _ _ _ hmiss,
        make_api_request_body_network p.state.api_key accountsRequest o2
          (by rw [hkey]; exact hk)] at ha
    split at ha
    · split at ha
      · cases ha; rfl
      · cases ha
    · cases ha; rfl
  · intro e he hne hfalse
    rw [hone (Or.inl hfalse), he]
    simp [pyOrStr, renderOpt, hne]

theorem c5_amended_both_attempted_one_error_witness :
    refresh_data { api_key := "k" } [] 0
        (.response { statusCode := 401, jsonBody := none, text := "" })
        (.response { statusCode := 429, jsonBody := none, text := "" })
      = some ⟨["Refresh failed: Unauthorized: Please check your API key"],
          { api_key := "k" },
          [(accountsRequest,
            (Json.null, some "Rate limit exceeded. Please try again later"),
            0),
           (profilesRequest,
            (Json.null, some "Unauthorized: Please check your API key"), 0)],
          true, true⟩ := by
  have h := c5_amended_both_attempted_one_error { api_key := "k" } [] 0
    (.response { statusCode := 401, jsonBody := none, text := "" })
    (.response { statusCode := 429, jsonBody := none, text := "" })
    ⟨false, some "Unauthorized: Please check your API key",
     { api_key := "k" },
     [(profilesRequest,
       (Json.null, some "Unauthorized: Please check your API key"), 0)],
     true⟩
    ⟨false, some "Rate limit exceeded. Please try again later",
     { api_key := "k" },
     [(accountsRequest,
       (Json.null, some "Rate limit exceeded. Please try again later"), 0),
      (profilesRequest,
       (Json.null, some "Unauthorized: Please check your API key"), 0)],
     true⟩
    (by decide) (by decide) (by decide)
  exact h.2.2.2 "Unauthorized: Please check your API key" rfl (by decide) rfl

/-! ## C6 -/

/-- Claim C6: `createPost` validates client-side before submission: a submission
with empty (stripped) content and no selected platform returns exactly the
two itemized messages and performs no network call; a submission containing a
Reddit target whose `type` is `"link"` and no `url` returns an itemized error
list containing the URL-requirement message; every validation failure
short-circuits before any network call and returns the itemized message
list. -/
theorem c6_createpost_validates_first (s : SessionState) (c : CacheState)
    (now : Nat) (scheduledFor : Option String) (timezone : String)
    (media_url : Option String) (o : HttpOutcome) :
    (∀ content : String, pyStrip content = "" →
      handle_post_submission s c now content [] scheduledFor timezone
          media_url o
        = (Sum.inl ["Post content is required",
                    "At least one platform must be selected"], c, false))
    ∧ (∀ (content : String) (selected : List PlatformTarget)
        (acc : PlatformTarget) (d : SpecData),
        acc ∈ selected → acc.platform = "reddit" →
        acc.platformSpecificData = some d → d.type = "link" →
        (d.url = none ∨ d.url = some "") →
        ∃ errs, handle_post_submission s c now content selected scheduledFor
            timezone media_url o = (Sum.inl errs, c, false)
          ∧ "URL is required for Reddit link posts" ∈ errs)
    ∧ (∀ (content : String) (selected : List PlatformTarget),
        validate_post_form content selected ≠ [] →
        handle_post_submission s c now content selected scheduledFor timezone
            media_url o
          = (Sum.inl (validate_post_form content selected), c, false)) := by
  have h3 : ∀ (content : String) (selected : List PlatformTarget),
      validate_post_form content selected ≠ [] →
      handle_post_submission s c now content selected scheduledFor timezone
          media_url o
        = (Sum.inl (validate_post_form content selected), c, false) := by
    intro content selected hne
    simp [handle_post_submission, hne]
  have hval : ∀ content : String, pyStrip content = "" →
      validate_post_form content []
        = ["Post content is required",
           "At least one platform must be selected"] := by
    intro content hc
    simp [validate_post_form, hc]
  refine ⟨fun content hc => ?_, ?_, h3⟩
  · have := h3 content [] (by rw [hval content hc]; exact by decide)
    rwa [hval content hc] at this
  · intro content selected acc d hmem hplat hpsd htype hurl
    have hmsg : "URL is required for Reddit link posts"
        ∈ reddit_target_errors acc := by
      rcases hurl with h | h <;>
        simp [reddit_target_errors, hplat, hpsd, htype, h]
    have hmem2 : "URL is required for Reddit link posts"
        ∈ validate_post_form content selected := by
      unfold validate_post_form
      refine List.mem_append.mpr (Or.inr ?_)
      rw [List.mem_flatten]
      exact ⟨reddit_target_errors acc, List.mem_map_of_mem _ hmem, hmsg⟩
    exact ⟨validate_post_form content selected,
      h3 content selected (List.ne_nil_of_mem hmem2), hmem2⟩

theorem c6_createpost_validates_first_witness :
    handle_post_submission { api_key := "k" } [] 0 "" [] none
        "America/New_York" none .timeout
      = (Sum.inl ["Post content is required",
                  "At least one platform must be selected"], [], false)
    ∧ ∃ errs, handle_post_submission { api_key := "k" } [] 0 "hi"
          [⟨"reddit", "a1", some ⟨"prog", "link", none⟩⟩] none
          "America/New_York" none .timeout
        = (Sum.inl errs, [], false)
      ∧ "URL is required for Reddit link posts" ∈ errs := by
  obtain ⟨h1, h2, -⟩ := c6_createpost_validates_first { api_key := "k" } [] 0
    none "America/New_York" none .timeout
  exact ⟨h1 "" (by decide),
    h2 "hi" [⟨"reddit", "a1", some ⟨"prog", "link", none⟩⟩]
      ⟨"reddit", "a1", some ⟨"prog", "link", none⟩⟩ ⟨"prog", "link", none⟩
      (by decide) rfl rfl rfl (Or.inl rfl)⟩

/-! ## C8 -/

/-- Claim C8 counterexample.  The claim says `validate_api_key` reports valid
exactly when `load_profiles` would succeed.  Concretely: on a 200 response
with body an empty JSON object, `validate_api_key` reports the key valid while
`load_profiles` returns `(False, None)` — a failure. -/
theorem c8_counterexample :
    (validate_api_key { api_key := "k" } [] 0
        (.response { statusCode := 200, jsonBody := some (.obj []),
                     text := "" })).1
      = (true, some "API key is valid")
    ∧ ((load_profiles { api_key := "k" } [] 0
        (.response { statusCode := 200, jsonBody := some (.obj []),
                     text := "" })).map (fun r => (r.success, r.error)))
      = some (false, none) := by
  decide

/-- Claim C8 (amended): `validate_api_key` reports the credential valid exactly
when the profiles request returns a non-`None` payload, and reports any
classified failure as invalid carrying the underlying error; `load_profiles`
succeeds only when the payload is truthy, so the two disagree on a 2xx
response whose decoded body is falsy but not null, such as the empty JSON object. -/
theorem c8_amended_validate_iff_nonnull (s : SessionState) (c : CacheState)
    (now : Nat) (o : HttpOutcome) (hk : s.api_key ≠ "") :
    ((validate_api_key s c now o).1
      = (if (make_api_request s.api_key c now profilesRequest o).1.1 ≠ Json.null
         then (true, some "API key is valid")
         else (false, (make_api_request s.api_key c now profilesRequest o).1.2)))
    ∧ (∀ res : LoadOutcome, load_profiles s c now o = some res →
        res.success
          = truthy (make_api_request s.api_key c now profilesRequest o).1.1)
    ∧ (truthy (make_api_request s.api_key c now profilesRequest o).1.1 = false →
        load_profiles s c now o
          = some ⟨false,
              (make_api_request s.api_key c now profilesRequest o).1.2, s,
              (make_api_request s.api_key c now profilesRequest o).2.1,
              (make_api_request s.api_key c now profilesRequest o).2.2⟩) := by
  refine ⟨?_, fun res hres => ?_, fun hf => ?_⟩
  · by_cases hnull :
      (make_api_request s.api_key c now profilesRequest o).1.1 = Json.null
    · simp [validate_api_key, hk, hnull]
    · simp [validate_api_key, hk, hnull]
  · simp only [load_profiles] at hres
    split at hres
    · split at hres
      · cases hres; simp_all
      · cases hres
    · cases hres; simp_all
  · simp [load_profiles, hf]

theorem c8_amended_validate_iff_nonnull_witness :
    (validate_api_key { api_key := "k" } [] 0
        (.response { statusCode := 200, jsonBody := some (.obj []),
                     text := "" })).1
      = (if (make_api_request "k" [] 0 profilesRequest
              (.response { statusCode := 200, jsonBody := some (.obj []),
                           text := "" })).1.1 ≠ Json.null
         then (true, some "API key is valid")
         else (false, (make_api_request "k" [] 0 profilesRequest
              (.response { statusCode := 200, jsonBody := some (.obj []),
                           text := "" })).1.2)) :=
  (c8_amended_validate_iff_nonnull { api_key := "k" } [] 0
    (.response { statusCode := 200, jsonBody := some (.obj []), text := "" })
    (by decide)).1

/-! ## C9 -/

/-- Claim C9: a loader failure leaves the session state unchanged, and a loader
success replaces the whole `profiles` (resp. `accounts`) field with the value
extracted from the fresh payload, touching nothing else — never a partial
update. -/
theorem c9_loaders_full_replace_or_untouched (s : SessionState)
    (c : CacheState) (now : Nat) (o : HttpOutcome) (res : LoadOutcome) :
    (load_profiles s c now o = some res →
      (res.success = false → res.state = s)
      ∧ (res.success = true →
        ∃ v, (make_api_request s.api_key c now profilesRequest o).1.1.pyGet
              "profiles" (.arr []) = some v
          ∧ res.state = { s with profiles := v }))
    ∧ (load_accounts s c now o = some res →
      (res.success = false → res.state = s)
      ∧ (res.success = true →
        ∃ v, (make_api_request s.api_key c now accountsRequest o).1.1.pyGet
              "accounts" (.arr []) = some v
          ∧ res.state = { s with accounts := v })) := by
  constructor
  · intro h
    simp only [load_profiles] at h
    split at h
    · split at h
      · rename_i v heq
        cases h
        constructor
        · intro hfalse
          cases hfalse
        · intro hx
          exact ⟨v, heq, rfl⟩
      · cases h
    · cases h
      exact ⟨fun _ => rfl, fun htrue => by cases htrue⟩
  · intro h
    simp only [load_accounts] at h
    split at h
    · split at h
      · rename_i v heq
        cases h
        constructor
        · intro hfalse
          cases hfalse
        · intro hx
          exact ⟨v, heq, rfl⟩
      · cases h
    · cases h
      exact ⟨fun _ => rfl, fun htrue => by cases htrue⟩

theorem c9_loaders_full_replace_or_untouched_witness :
    (∃ res : LoadOutcome,
      load_profiles { api_key := "k" } [] 0 .timeout = some res
      ∧ res.state = { api_key := "k" })
    ∧ (∃ res : LoadOutcome,
      load_profiles { api_key := "k" } [] 0
          (.response { statusCode := 200,
                       jsonBody := some (.obj [("profiles",
                                                .arr [.str "p1"])]),
                       text := "" }) = some res
      ∧ ∃ v, (make_api_request "k" [] 0 profilesRequest
            (.response { statusCode := 200,
                         jsonBody := some (.obj [("profiles",
                                                  .arr [.str "p1"])]),
                         text := "" })).1.1.pyGet "profiles" (.arr [])
          = some v
        ∧ res.state = { ({ api_key := "k" } : SessionState) with
                        profiles := v }) := by
  constructor
  · refine ⟨⟨false, some "Request timed out. Please try again",
             { api_key := "k" },
             [(profilesRequest,
               (Json.null, some "Request timed out. Please try again"), 0)],
             true⟩, by decide, ?_⟩
    exact ((c9_loaders_full_replace_or_untouched { api_key := "k" } [] 0
      .timeout _).1 (by decide)).1 rfl
  · refine ⟨⟨true, none, { api_key := "k", profiles := .arr [.str "p1"] },
             [(profilesRequest,
               (Json.obj [("profiles", Json.arr [Json.str "p1"])], none), 0)],
             true⟩, by decide, ?_⟩
    exact ((c9_loaders_full_replace_or_untouched { api_key := "k" } [] 0
      (.response { statusCode := 200,
                   jsonBody := some (.obj [("profiles", .arr [.str "p1"])]),
                   text := "" }) _).1 (by decide)).2 rfl

/-! ## C10 -/

/-- Claim C10: a 2xx response whose decoded JSON body is falsy (for example the
empty object) is classified by the HTTP client as a success `(payload, None)`,
yet `load_profiles`/`load_accounts` return `(False, None)` — a failure with a
null error — and leave the session state unchanged. -/
theorem c10_falsy_success_payload (s : SessionState) (c : CacheState)
    (now : Nat) (r : HttpResponse) (j : Json) (hk : s.api_key ≠ "")
    (hstatus : r.statusCode = 200 ∨ r.statusCode = 201)
    (hbody : r.jsonBody = some j) (hfalsy : truthy j = false) :
    (make_api_request_body s.api_key profilesRequest (.response r)).1
      = (j, none)
    ∧ (lookupFresh c now profilesRequest = none →
        load_profiles s c now (.response r)
          = some ⟨false, none, s,
              insertEntry c profilesRequest (j, none) now, true⟩)
    ∧ (lookupFresh c now accountsRequest = none →
        load_accounts s c now (.response r)
          = some ⟨false, none, s,
              insertEntry c accountsRequest (j, none) now, true⟩) := by
  have hb : ∀ req' : Request,
      make_api_request_body s.api_key req' (.response r) = ((j, none), true) := by
    intro req'
    rcases hstatus with h | h <;>
      simp [make_api_request_body, classify_response, hk, h, hbody]
  refine ⟨by rw [hb], fun hmiss => ?_, fun hmiss => ?_⟩
  · simp [load_profiles, make_api_request_miss _ _ _ _ _ hmiss, hb, hfalsy]
  · simp [load_accounts, make_api_request_miss _ _ _ _ _ hmiss, hb, hfalsy]

theorem c10_falsy_success_payload_witness :
    (make_api_request_body "k" profilesRequest
        (.response { statusCode := 200, jsonBody := some (.obj []),
                     text := "" })).1
      = (Json.obj [], none)
    ∧ load_profiles { api_key := "k" } [] 0
        (.response { statusCode := 200, jsonBody := some (.obj []),
                     text := "" })
      = some ⟨false, none, { api_key := "k" },
          insertEntry [] profilesRequest (Json.obj [], none) 0, true⟩ := by
  have h := c10_falsy_success_payload { api_key := "k" } [] 0
    { statusCode := 200, jsonBody := some (.obj []), text := "" }
    (Json.obj []) (by decide) (Or.inl rfl) rfl (by decide)
  exact ⟨h.1, h.2.1 (by decide)⟩

end App
